import Mathlib

/-!
Shallow embedding of the deposit-conversion core of the
Privex/cryptotoken-converter repository, together with proofs of the
behavioural claims about it.

Python `Decimal` values are embedded as exact rationals (`ℚ`); the source
performs exact decimal arithmetic on them.  Nullable text columns are
`Option String`; the database tables are lists of rows carried in a `Store`
record; Django's `transaction.atomic` is modelled by applying all writes of
the block to the store in one step (or none of them on an exception).
-/

namespace CTC

/-- `steemengine.helpers.empty` with the default arguments (`zero=False`,
`itr=False`): true exactly on `None` and the empty string. -/
def empty : Option String → Bool
  | none => true
  | some s => s = ""

/-- Accumulating worker for `pySplit`: walk the characters, `cur` is the
token being built (reversed), `acc` the finished tokens (reversed). -/
def splitWs : List Char → List (List Char) → List Char → List String
  | [], acc, cur =>
    let acc := if cur ≠ [] then cur.reverse :: acc else acc
    acc.reverse.map (fun l => String.mk l)
  | c :: rest, acc, cur =>
    if c.isWhitespace then
      splitWs rest (if cur ≠ [] then cur.reverse :: acc else acc) []
    else
      splitWs rest acc (c :: cur)

/-- Python `str.split()` with no separator: split on runs of whitespace,
discarding empty tokens. -/
def pySplit (s : String) : List String :=
  splitWs s.data [] []

/-- Python `str.strip()`: drop leading and trailing whitespace. -/
def pyStrip (s : String) : String :=
  String.mk (((s.data.dropWhile Char.isWhitespace).reverse.dropWhile
    Char.isWhitespace).reverse)

/-- Python `str.upper()` (ASCII, which is all the registry uses for coin
symbols). -/
def pyUpper (s : String) : String :=
  String.mk (s.data.map Char.toUpper)

/-- `payments.models.Coin` (the fields the conversion core reads).
`symbol` is the primary key of the table. -/
structure Coin where
  symbol : String
  can_issue : Bool
  deriving DecidableEq

/-- `payments.models.CoinPair`: an allowed conversion direction with its
exchange rate.  The foreign keys are embedded as the rows they reference. -/
structure CoinPair where
  from_coin : Coin
  to_coin : Coin
  exchange_rate : ℚ
  deriving DecidableEq

/-- `payments.models.Deposit` (the columns the conversion core reads or
writes).  Timestamps are abstract ticks (`Nat`). -/
structure Deposit where
  id : Nat
  txid : String
  coin : Coin
  vout : Int
  status : String
  error_reason : Option String
  tx_timestamp : Option Nat
  address : Option String
  from_account : Option String
  to_account : Option String
  memo : Option String
  amount : ℚ
  convert_to : Option Coin
  convert_dest_address : Option String
  convert_dest_memo : Option String
  refund_address : Option String
  refund_memo : Option String
  refund_coin : Option String
  refund_amount : ℚ
  refund_txid : Option String
  refunded_at : Option Nat
  last_convert_attempt : Option Nat
  processed_at : Option Nat
  deriving DecidableEq

/-- `payments.models.Conversion`: the durable record of one completed
conversion.  The one-to-one key to `Deposit` is the deposit's id. -/
structure Conversion where
  deposit_id : Nat
  from_coin : Coin
  to_coin : Coin
  from_address : Option String
  to_address : String
  to_memo : Option String
  to_amount : ℚ
  to_txid : Option String
  tx_fee : ℚ
  ex_fee : ℚ
  deriving DecidableEq

/-- `payments.models.AddressAccountMap`: routing row for memo-less
deposits. -/
structure AddressAccountMap where
  deposit_coin : Coin
  deposit_address : String
  deposit_memo : Option String
  destination_coin : Coin
  destination_address : String
  destination_memo : Option String
  deriving DecidableEq

/-- The relational store: one list of rows per table, in insertion order
(Django's default queryset order for these tables). -/
structure Store where
  coins : List Coin
  pairs : List CoinPair
  deposits : List Deposit
  conversions : List Conversion
  addr_maps : List AddressAccountMap
  deriving DecidableEq

/-- `ConvertCore.amount_converted`: fee mathematics on exact decimals.
`Decimal('0.01')` is the exact rational `1/100`. -/
def amount_converted (from_amount : ℚ) (ex_rate : ℚ) (fee_pct : ℚ) : ℚ × ℚ :=
  let conv_amount := from_amount * ex_rate
  let ex_fee_pct := fee_pct * (1 / 100)
  let ex_fee := conv_amount * ex_fee_pct
  let send_amount := conv_amount - ex_fee
  (send_amount, ex_fee)

/-- `Conversion.objects.filter(deposit=d).count()`. -/
def conversionsFor (st : Store) (deposit_id : Nat) : Nat :=
  (st.conversions.filter (fun c => c.deposit_id = deposit_id)).length

/-- `d.coin.pairs_from.count()`: number of CoinPair rows with this coin as
`from_coin`. -/
def pairsFromCount (st : Store) (c : Coin) : Nat :=
  (st.pairs.filter (fun p => p.from_coin = c)).length

/-- `Coin.objects.get(symbol=symbol)`: `none` models `Coin.DoesNotExist`. -/
def coinGet (st : Store) (symbol : String) : Option Coin :=
  st.coins.find? (fun c => c.symbol = symbol)

/-- `CoinPair.objects.get(from_coin=fc, to_coin=tc)`: `none` models
`CoinPair.DoesNotExist`. -/
def coinPairGet (st : Store) (fc tc : Coin) : Option CoinPair :=
  st.pairs.find? (fun p => p.from_coin = fc ∧ p.to_coin = tc)

/-- The AddressAccountMap rows considered by `validate_deposit` for a
stripped memo `memo` and deposit address `da`:
`filter(deposit_coin=d.coin, deposit_address=d.address)`, further filtered
by `deposit_memo=memo` when the memo is non-empty. -/
def addrMapCandidates (st : Store) (dcoin : Coin) (da : String)
    (memo : Option String) : List AddressAccountMap :=
  let amaps := st.addr_maps.filter
    (fun a => a.deposit_coin = dcoin ∧ a.deposit_address = da)
  if !(empty memo) then amaps.filter (fun a => a.deposit_memo = memo) else amaps

/-- The exceptions `ConvertCore.validate_deposit` can raise. -/
inductive VErr
  | convertError
  | convertInvalid
  | coinDoesNotExist
  | pairDoesNotExist
  deriving DecidableEq

/-- `ConvertCore.validate_deposit`: validates a deposit and resolves its
destination `(address, pair, dest_memo)`.  Reads the store, never writes. -/
def validate_deposit (st : Store) (d : Deposit) :
    Except VErr (String × CoinPair × Option String) :=
  -- A conversion already exists for this deposit --> ConvertError
  if 0 < conversionsFor st d.id then .error .convertError
  -- No coin pairs with from_coin = d.coin --> ConvertInvalid
  else if pairsFromCount st d.coin < 1 then .error .convertInvalid
  else
    let memo : Option String := d.memo.map pyStrip
    if !(empty memo) && empty d.address then
      -- Memo, but no address: parse the memo
      match memo with
      | none => .error .convertInvalid    -- unreachable: the guard needs a memo
      | some ms =>
        match pySplit ms with
        | sym :: addr :: rest =>
          -- First item is dest symbol, second is address/account;
          -- 3+ items means there's a destination memo at the end
          let symbol := pyUpper sym
          let dest_memo := if rest ≠ [] then String.intercalate " " rest else ""
          match coinGet st symbol with
          | none => .error .coinDoesNotExist
          | some tc =>
            match coinPairGet st d.coin tc with
            | none => .error .pairDoesNotExist
            | some pair => .ok (addr, pair, some dest_memo)
        | _ => .error .convertInvalid     -- memo split by spaces has < 2 items
    else if !(empty d.address) then
      match d.address with
      | none => .error .convertInvalid    -- unreachable: the guard needs an address
      | some da =>
        match (addrMapCandidates st d.coin da memo).head? with
        | none => .error .convertInvalid  -- no known coin destination mapped
        | some a_map =>
          match coinPairGet st d.coin a_map.destination_coin with
          | none => .error .pairDoesNotExist
          | some pair => .ok (a_map.destination_address, pair, a_map.destination_memo)
    -- No address and no memo: nowhere to route the deposit
    else .error .convertInvalid

/-- The exceptions the task layer (`payments.tasks`) surfaces. -/
inductive TaskErr
  | convertError
  | convertInvalid
  | depositDoesNotExist
  deriving DecidableEq

/-- `Deposit.objects.get(id=deposit_id)`. -/
def depositGet (st : Store) (deposit_id : Nat) : Option Deposit :=
  st.deposits.find? (fun d => d.id = deposit_id)

/-- `tasks.check_deposit` without the lock bookkeeping: validate a `new`
deposit and, on success, atomically store the resolved destination and move
it to `mapped`.  On any raised exception the enclosing `transaction.atomic`
writes nothing, so the store is returned unchanged. -/
def check_deposit (st : Store) (deposit_id : Nat) : Store × Except TaskErr Nat :=
  match depositGet st deposit_id with
  | none => (st, .error .depositDoesNotExist)
  | some d =>
    if d.status ≠ "new" then (st, .error .convertError)
    else
      match validate_deposit st d with
      | .error .convertError => (st, .error .convertError)
      | .error .convertInvalid => (st, .error .convertInvalid)
      -- `except (CoinPair.DoesNotExist, Coin.DoesNotExist): raise ConvertInvalid`
      | .error .coinDoesNotExist => (st, .error .convertInvalid)
      | .error .pairDoesNotExist => (st, .error .convertInvalid)
      | .ok (address, pair, dest_memo) =>
        let d' := { d with
          status := "mapped"
          convert_to := some pair.to_coin
          convert_dest_address := some address
          convert_dest_memo := dest_memo }
        ({ st with deposits := st.deposits.map (fun x => if x.id = deposit_id then d' else x) },
         .ok deposit_id)

/-- The dictionary returned by a Mover's `send`/`issue`/`send_or_issue`:
`{txid, coin, amount, fee, from, send_type}` with every key optional
(`dict.get` is used on it).  `from` is a Python keyword-clash too, hence
`from_`. -/
structure MoverResult where
  txid : Option String
  amount : Option ℚ
  fee : Option ℚ
  from_ : Option String
  deriving DecidableEq

/-- The observable outcome of one Mover send call. -/
inductive SendBeh
  | ok (s : MoverResult)
  | accountNotFound
  | notEnoughBalance
  deriving DecidableEq

/-- The environment `convert` runs in: the destination Mover's behaviour for
this attempt (`get_manager(dest_coin)` is resolved outside the store), the
`settings.EX_FEE` percentage, the current clock tick for `timezone.now()`,
and whether `notify_low_bal` raises (its failure is swallowed). -/
structure Env where
  healthy : Bool
  send : SendBeh
  send_or_issue : SendBeh
  EX_FEE : ℚ
  now : Nat
  notify_ok : Bool
  deriving DecidableEq

/-- Which Mover call `convert` makes: `send_or_issue` when the destination
coin can be issued, plain `send` otherwise. -/
def moverSend (env : Env) (tcoin : Coin) : SendBeh :=
  if tcoin.can_issue then env.send_or_issue else env.send

/-- The provenance memo `convert` builds when the caller supplies none. -/
def default_dest_memo (deposit : Deposit) (src_coin : String) : String :=
  let dm := "Token Conversion"
  let dm := if !(empty deposit.address) then
      dm ++ " via " ++ src_coin ++ " deposit address " ++ deposit.address.getD ""
    else dm
  if !(empty deposit.from_account) then
    dm ++ " from " ++ src_coin ++ " account " ++ deposit.from_account.getD ""
  else dm

/-- The memo actually sent: the caller's `dest_memo` unless empty, else the
generated provenance memo. -/
def final_dest_memo (deposit : Deposit) (src_coin : String)
    (dest_memo : Option String) : String :=
  if empty dest_memo then default_dest_memo deposit src_coin
  else dest_memo.getD ""

/-- The deposit row as `convert` saves it on success:
`status='conv'`, `convert_to=tcoin`, `processed_at=now`. -/
def depositConverted (deposit : Deposit) (tcoin : Coin) (now : Nat) : Deposit :=
  { deposit with
    status := "conv"
    convert_to := some tcoin
    processed_at := some now }

/-- The Conversion row `convert` builds from the Mover result `s`, with the
source's `dict.get` defaults. -/
def conversionRow (deposit : Deposit) (pair : CoinPair) (address : String)
    (dest_memo' : String) (ex_fee : ℚ) (s : MoverResult) : Conversion :=
  { deposit_id := deposit.id
    from_coin := pair.from_coin
    to_coin := pair.to_coin
    from_address := s.from_
    to_address := address
    to_memo := some dest_memo'
    to_amount := s.amount.getD deposit.amount
    to_txid := s.txid
    tx_fee := s.fee.getD 0
    ex_fee := ex_fee }

/-- The three ways `ConvertCore.convert` can come back: a successful
transfer (updated deposit plus the freshly inserted Conversion, the
function's return value), `None` with only `last_convert_attempt` stamped
(retry later), or a raised `ConvertInvalid`. -/
inductive CResult
  | success (sent_amount : ℚ) (d : Deposit) (c : Conversion)
  | retry (d : Deposit)
  | invalid
  deriving DecidableEq

/-- `ConvertCore.convert`: compute fees, health-check the destination Mover,
send, and on success save the deposit as converted and build the Conversion
row.  `AccountNotFound` is reclassified as `ConvertInvalid`;
`NotEnoughBalance` stamps `last_convert_attempt` and returns `None`
(`notify_low_bal` failures are swallowed and touch no Deposit field). -/
def convert (env : Env) (deposit : Deposit) (pair : CoinPair) (address : String)
    (dest_memo : Option String) : CResult :=
  let fcoin := pair.from_coin
  let tcoin := pair.to_coin
  let src_coin := pyUpper fcoin.symbol
  let dest_memo' := final_dest_memo deposit src_coin dest_memo
  let se := amount_converted deposit.amount pair.exchange_rate env.EX_FEE
  let send_amount := se.1
  let ex_fee := se.2
  if !env.healthy then
    CResult.retry { deposit with last_convert_attempt := some env.now }
  else
    match moverSend env tcoin with
    | .ok s =>
      CResult.success send_amount (depositConverted deposit tcoin env.now)
        (conversionRow deposit pair address dest_memo' ex_fee s)
    | .accountNotFound => CResult.invalid
    | .notEnoughBalance =>
      CResult.retry { deposit with last_convert_attempt := some env.now }

/-- How one run of the `convert_deposit` task ends. -/
inductive COutcome
  | ok (c : Conversion)       -- returned dict(conversion_id=conv.id)
  | locked                    -- LockMgr raised Locked
  | convertError
  | convertInvalid
  | attributeError            -- conv.id evaluated on conv = None
  | integrityError            -- the one-to-one constraint rejected c.save()
  | depositDoesNotExist
  deriving DecidableEq

/-- The one commit `convert_deposit`'s `transaction.atomic` block performs
on success: the converted deposit row replaces the old one and the new
Conversion row is inserted. -/
def commitConvert (st : Store) (deposit_id : Nat) (d' : Deposit)
    (c : Conversion) : Store :=
  { st with
    deposits := st.deposits.map (fun x => if x.id = deposit_id then d' else x)
    conversions := st.conversions ++ [c] }

/-- The lock name `convert_deposit` takes: `convert_deposit:<id>`. -/
def convertLockName (deposit_id : Nat) : String :=
  "convert_deposit:" ++ toString deposit_id

/-- `tasks.convert_deposit` against a store, with `locks` the set of
distributed locks currently held elsewhere.  Checks `status == 'mapped'`
and the resolved destination fields under the per-deposit lock, then runs
`ConvertCore.convert` inside `transaction.atomic`: the success branch
commits the deposit update and Conversion insert together; the `None`
return makes `conv.id` raise `AttributeError`, which rolls the whole block
back (including the `last_convert_attempt` stamp); raised exceptions
likewise leave the store unchanged. -/
def convert_deposit (env : Env) (locks : List String) (st : Store)
    (deposit_id : Nat) : Store × COutcome :=
  match depositGet st deposit_id with
  | none => (st, .depositDoesNotExist)
  | some d =>
    if convertLockName deposit_id ∈ locks then (st, .locked)
    else if d.status ≠ "mapped" then (st, .convertError)
    else if d.convert_to.isNone || empty d.convert_dest_address then
      (st, .convertError)
    else
      match d.convert_to with
      | none => (st, .convertError)   -- unreachable: isNone was checked
      | some tc =>
        match coinPairGet st d.coin tc with
        | none => (st, .convertInvalid)   -- CoinPair.DoesNotExist
        | some pair =>
          match convert env d pair (d.convert_dest_address.getD "")
              d.convert_dest_memo with
          | .success _ d' c =>
            -- `c.save()`: the store (= the database) rejects a second
            -- Conversion for the same deposit and rolls the block back
            if 0 < conversionsFor st deposit_id then (st, .integrityError)
            else (commitConvert st deposit_id d' c, .ok c)
          | .retry _ => (st, .attributeError)
          | .invalid => (st, .convertInvalid)

/-- How `ConvertCore.refund_sender` ends: the updated deposit plus the send
result, or a raised exception before anything was sent or written. -/
inductive RResult
  | ok (d : Deposit) (amount : ℚ) (txid : String)
  | notRefunding
  | attributeError            -- no non-empty return address/account
  deriving DecidableEq

/-- The default refund memo built from the deposit when neither a `reason`
argument nor `error_reason` is available. -/
def refundDefaultReason (d : Deposit) : String :=
  "Returned to sender due to unknown error processing deposit amount " ++
    toString d.amount ++ " with TXID " ++ d.txid ++ "..."

/-- `ConvertCore.refund_sender`: refuse if the deposit is already refunded
or converted, resolve the return destination (`return_to`, else the
deposit's address, else its from_account), send with the source coin's
Mover, and store the refund_* fields with status `refund`.  `txAmount` and
`txTxid` are the `amount`/`txid` keys of the send result; the second
component of the result counts Mover send calls made. -/
def refund_sender (now : Nat) (txAmount : ℚ) (txTxid : String)
    (deposit : Deposit) (reason : Option String) (return_to : Option String) :
    RResult × Nat :=
  let d := deposit
  let reason := if empty reason then d.error_reason else reason
  let reason : String :=
    if empty reason then refundDefaultReason d else reason.getD ""
  if d.status = "refund" then (.notRefunding, 0)
  else if d.status = "conv" then (.notRefunding, 0)
  else
    let sym := pyUpper d.coin.symbol
    -- Return destination priority: return_to arg, sender address, sender account
    let dest := if empty return_to then d.address else return_to
    let dest := if empty dest then d.from_account else dest
    if empty dest then (.attributeError, 0)
    else
      let d' := { d with
        status := "refund"
        refund_address := dest
        refund_amount := txAmount
        refund_coin := some sym
        refund_memo := some reason
        refund_txid := some txTxid
        refunded_at := some now }
      (.ok d' txAmount txTxid, 1)

/-- One raw scanned transaction as fed to `import_batch` (the canonical
dict built by a Loader's `clean_txs`). -/
structure Tx where
  txid : String
  coin : String
  vout : Int
  tx_timestamp : Nat
  address : Option String
  from_account : Option String
  to_account : Option String
  memo : Option String
  amount : ℚ
  deriving DecidableEq

/-- The primary key Django assigns to a freshly inserted Deposit row: one
more than the largest id in the table. -/
def nextDepositId (st : Store) : Nat :=
  (st.deposits.map (fun d => d.id)).foldr max 0 + 1

/-- `Deposit(**tx)`: a new Deposit row from a raw transaction, with the
model's column defaults for everything the dict does not carry. -/
def mkDeposit (id : Nat) (c : Coin) (tx : Tx) : Deposit :=
  { id := id, txid := tx.txid, coin := c, vout := tx.vout, status := "new",
    error_reason := none, tx_timestamp := some tx.tx_timestamp,
    address := tx.address,
    from_account := tx.from_account, to_account := tx.to_account,
    memo := tx.memo, amount := tx.amount, convert_to := none,
    convert_dest_address := none, convert_dest_memo := none,
    refund_address := none, refund_memo := none, refund_coin := none,
    refund_amount := 0, refund_txid := none, refunded_at := none,
    last_convert_attempt := none, processed_at := none }

/-- The body of `import_batch`'s per-transaction try/except: skip when a
Deposit with this txid already exists
(`Deposit.objects.filter(txid=tx['txid']).count() > 0`); resolve the coin
(`Coin.objects.get`; its `DoesNotExist` is swallowed by the bare `except`,
skipping the transaction); otherwise insert the new row. -/
def importTx (st : Store) (tx : Tx) : Store :=
  if 0 < (st.deposits.filter (fun dep => dep.txid = tx.txid)).length then st
  else
    match coinGet st tx.coin with
    | none => st
    | some c =>
      { st with deposits := st.deposits ++ [mkDeposit (nextDepositId st) c tx] }

/-- The `for tx in txs` loop of `import_batch`: process transactions one at
a time; the `finally` block counts every consumed transaction and bails out
with `False` (more may remain) once `batch` of them were consumed.  Returns
the store, the unconsumed suffix of the generator and the finished flag. -/
def importLoop : Store → List Tx → Nat → Nat → Store × List Tx × Bool
  | st, [], batch, i => (st, [], decide (i < batch))
  | st, tx :: rest, batch, i =>
    let st' := importTx st tx
    let i' := i + 1
    if batch ≤ i' then (st', rest, false)
    else importLoop st' rest batch i'

/-- `tasks.import_batch`: insert up to `batch` transactions from the
generator `txs` into the Deposit table; `True` means the generator is
exhausted. -/
def import_batch (st : Store) (txs : List Tx) (batch : Nat) :
    Store × List Tx × Bool :=
  importLoop st txs batch 0

/-- No two Deposit rows share a txid.  (Stronger than the
`(txid, coin, vout)` unique constraint, and what `import_batch`'s
txid-only duplicate check actually maintains.) -/
def txidUnique (l : List Deposit) : Prop :=
  l.Pairwise (fun a b => a.txid ≠ b.txid)

/-- A transaction is "seen" by a store if a Deposit with its txid exists, or
its coin symbol is unknown: in both cases `importTx` skips it. -/
def seenTx (st : Store) (tx : Tx) : Prop :=
  (∃ dep ∈ st.deposits, dep.txid = tx.txid) ∨ coinGet st tx.coin = none

/-- Program counter of one worker executing `tasks.convert_deposit`, split
at the store-visible boundaries.  The worker-local Deposit instance `d` is
produced by `Deposit.objects.get` BEFORE the lock is taken (tasks.py line
158 versus line 160) and is carried, stale, in the pc from then on. -/
inductive WPC
  | start                                                -- before the get
  | fetched (d : Deposit)                                -- before LockMgr
  | acquired (d : Deposit)                               -- holds the lock
  | checked (d : Deposit) (pair : CoinPair)              -- pre-send
  | sent (d : Deposit) (pair : CoinPair) (s : MoverResult)  -- pre-commit
  | doneLocked                                           -- Locked raised
  | doneError                                            -- ConvertError
  | doneFail    -- other exception / rollback (invalid, unhealthy, IntegrityError)
  | doneOk
  deriving DecidableEq

/-- One step of a worker running `tasks.convert_deposit` on `deposit_id`:
given the shared store and the per-deposit lock's state, produce the new
store, lock state, pc, and the number of successful Mover sends performed
by the step.  Checks run on the worker-local instance `d`; the commit step
enforces the Deposit↔Conversion one-to-one constraint (`IntegrityError`
rolls the atomic block back). -/
def workerStep (env : Env) (deposit_id : Nat) (st : Store) (lock : Bool) :
    WPC → Store × Bool × WPC × Nat
  | .start =>
    match depositGet st deposit_id with
    | none => (st, lock, .doneFail, 0)
    | some d => (st, lock, .fetched d, 0)
  | .fetched d =>
    if lock then (st, lock, .doneLocked, 0)
    else (st, true, .acquired d, 0)
  | .acquired d =>
    if d.status ≠ "mapped" then (st, false, .doneError, 0)
    else if d.convert_to.isNone || empty d.convert_dest_address then
      (st, false, .doneFail, 0)
    else
      match d.convert_to with
      | none => (st, false, .doneFail, 0)
      | some tc =>
        match coinPairGet st d.coin tc with
        | none => (st, false, .doneFail, 0)
        | some pair =>
          if !env.healthy then (st, false, .doneFail, 0)
          else (st, lock, .checked d pair, 0)
  | .checked d pair =>
    match moverSend env pair.to_coin with
    | .ok s => (st, lock, .sent d pair s, 1)
    | _ => (st, false, .doneFail, 0)
  | .sent d pair s =>
    if 0 < conversionsFor st deposit_id then (st, false, .doneFail, 0)
    else
      (commitConvert st deposit_id (depositConverted d pair.to_coin env.now)
        (conversionRow d pair (d.convert_dest_address.getD "")
          (final_dest_memo d (pyUpper pair.from_coin.symbol) d.convert_dest_memo)
          (amount_converted d.amount pair.exchange_rate env.EX_FEE).2 s),
       false, .doneOk, 0)
  | .doneLocked => (st, lock, .doneLocked, 0)
  | .doneError => (st, lock, .doneError, 0)
  | .doneFail => (st, lock, .doneFail, 0)
  | .doneOk => (st, lock, .doneOk, 0)

/-- Two workers racing `convert_deposit` on the same deposit id over one
shared store and one distributed lock. -/
structure TwoWorkerSys where
  store : Store
  lock : Bool
  w1 : WPC
  w2 : WPC
  sends : Nat
  deriving DecidableEq

/-- Scheduler step: `true` advances worker 1, `false` worker 2. -/
def sysStep (env : Env) (deposit_id : Nat) (sys : TwoWorkerSys) (w : Bool) :
    TwoWorkerSys :=
  if w then
    let r := workerStep env deposit_id sys.store sys.lock sys.w1
    { store := r.1, lock := r.2.1, w1 := r.2.2.1, w2 := sys.w2,
      sends := sys.sends + r.2.2.2 }
  else
    let r := workerStep env deposit_id sys.store sys.lock sys.w2
    { store := r.1, lock := r.2.1, w1 := sys.w1, w2 := r.2.2.1,
      sends := sys.sends + r.2.2.2 }

/-- Run a finite schedule of interleaved worker steps. -/
def sysRun (env : Env) (deposit_id : Nat) :
    TwoWorkerSys → List Bool → TwoWorkerSys
  | sys, [] => sys
  | sys, b :: sched => sysRun env deposit_id (sysStep env deposit_id sys b) sched

/-- Both workers fresh, lock free, no sends yet. -/
def initSys (st : Store) : TwoWorkerSys :=
  { store := st, lock := false, w1 := .start, w2 := .start, sends := 0 }

/-! Concrete fixtures used to instantiate the theorems below on closed
inputs. -/

def exENG : Coin := ⟨"ENG", false⟩

def exLTC : Coin := ⟨"LTC", false⟩

def exLTCP : Coin := ⟨"LTCP", true⟩

def exPairEngLtc : CoinPair := ⟨exENG, exLTC, 1⟩

def exPairLtcLtcp : CoinPair := ⟨exLTC, exLTCP, 1⟩

/-- A freshly scanned deposit with every optional column blank. -/
def baseDeposit : Deposit :=
  { id := 1, txid := "tx100", coin := exENG, vout := 0, status := "new",
    error_reason := none, tx_timestamp := none, address := none,
    from_account := none,
    to_account := none, memo := none, amount := 10, convert_to := none,
    convert_dest_address := none, convert_dest_memo := none,
    refund_address := none, refund_memo := none, refund_coin := none,
    refund_amount := 0, refund_txid := none, refunded_at := none,
    last_convert_attempt := none, processed_at := none }

def exAMap : AddressAccountMap :=
  ⟨exENG, "engaddr1", none, exLTC, "ltcaddr9", some "destmemo"⟩

def exDepMemo : Deposit := { baseDeposit with memo := some "LTC abc123 hello world" }

def exDepAddr : Deposit := { baseDeposit with id := 2, address := some "engaddr1" }

def exDepShort : Deposit := { baseDeposit with id := 3, memo := some "onlyone" }

/-- A deposit that already went through `check_deposit`: destination
resolved, awaiting conversion. -/
def exDepMapped : Deposit :=
  { baseDeposit with
    id := 5
    status := "mapped"
    memo := some "LTC abc123"
    convert_to := some exLTC
    convert_dest_address := some "abc123"
    convert_dest_memo := some "" }

def exMoverResult : MoverResult :=
  { txid := some "desttx1", amount := none, fee := none, from_ := some "hotwallet" }

def exEnv : Env :=
  { healthy := true, send := .ok exMoverResult, send_or_issue := .ok exMoverResult,
    EX_FEE := 1, now := 42, notify_ok := true }

def exEnvDown : Env := { exEnv with healthy := false }

def exEnvBroke : Env :=
  { exEnv with send := .notEnoughBalance, send_or_issue := .notEnoughBalance }

def exDepConv : Deposit :=
  { baseDeposit with id := 6, status := "conv", from_account := some "alice" }

def exDepRefund : Deposit :=
  { baseDeposit with id := 7, status := "refund", from_account := some "alice" }

def exDepUnmapped : Deposit := { baseDeposit with id := 4, address := some "nomap" }

def exStore : Store :=
  { coins := [exENG, exLTC, exLTCP]
    pairs := [exPairEngLtc, exPairLtcLtcp]
    deposits := [exDepMemo, exDepAddr, exDepShort, exDepUnmapped, exDepMapped]
    conversions := []
    addr_maps := [exAMap] }

/-- A Conversion row fulfilling deposit 1, used to exercise the duplicate
guard. -/
def exConv1 : Conversion :=
  { deposit_id := 1, from_coin := exENG, to_coin := exLTC,
    from_address := none, to_address := "ltcaddr9", to_memo := none,
    to_amount := 10, to_txid := some "out1", tx_fee := 0, ex_fee := 0 }

def exStoreDup : Store := { exStore with conversions := [exConv1] }

def exStoreNoPairs : Store := { exStore with pairs := [] }

def exStoreTerm : Store :=
  { exStore with deposits := [exDepConv, exDepRefund] }

/-- A previously scanned deposit for the import fixtures. -/
def exDepScan : Deposit := { baseDeposit with id := 10, txid := "scantx1" }

def exScanStore : Store :=
  { coins := [exENG, exLTC], pairs := [], deposits := [exDepScan],
    conversions := [], addr_maps := [] }

/-- A fresh raw transaction. -/
def exTxNew : Tx :=
  { txid := "scantx2", coin := "ENG", vout := 0, tx_timestamp := 5,
    address := none, from_account := some "bob", to_account := some "ouracct",
    memo := some "LTC bobaddr", amount := 3 }

/-- A raw transaction sharing `exDepScan`'s txid but with a different coin
and a different output index. -/
def exTxDup : Tx :=
  { txid := "scantx1", coin := "LTC", vout := 7, tx_timestamp := 6,
    address := some "ltcdep1", from_account := none, to_account := none,
    memo := none, amount := 4 }

end CTC

/-- Claim C3: for all exact decimals `A`, `R` and every fee percentage `F`,
`amount_converted A R F` returns `(send, fee)` with `fee = A*R*F/100` and
`send = A*R - fee`; hence `send + fee = A*R` exactly, and
`amount_converted A R 0 = (A*R, 0)`. -/
theorem amount_converted_exact (A R F : ℚ) :
    (CTC.amount_converted A R F).2 = A * R * F / 100 ∧
    (CTC.amount_converted A R F).1 = A * R - A * R * F / 100 ∧
    (CTC.amount_converted A R F).1 + (CTC.amount_converted A R F).2 = A * R ∧
    CTC.amount_converted A R 0 = (A * R, 0) := by
  refine ⟨?_, ?_, ?_, ?_⟩
  · simp only [CTC.amount_converted]; ring
  · simp only [CTC.amount_converted]; ring
  · simp only [CTC.amount_converted]; ring
  · simp only [CTC.amount_converted, Prod.mk.injEq]
    constructor <;> ring

/-- `pySplit` of the empty string yields no tokens. -/
theorem pySplit_empty : CTC.pySplit "" = [] := rfl

/-- Claim C4: destination resolution of `validate_deposit`.  With no existing
Conversion and at least one outgoing pair: (1) a deposit whose stripped memo
is non-empty, whose address is empty and whose memo splits into at least two
tokens resolves to (second token, pair towards the coin named by the
uppercased first token, remaining tokens joined by single spaces or `""`);
(2) otherwise a deposit with a non-empty address resolves via the first
matching AddressAccountMap row to that row's destination triple. -/
theorem validate_deposit_routing :
    (∀ (st : CTC.Store) (d : CTC.Deposit) (m0 sym addr : String)
       (rest : List String) (tc : CTC.Coin) (pair : CTC.CoinPair),
       CTC.conversionsFor st d.id = 0 →
       1 ≤ CTC.pairsFromCount st d.coin →
       d.memo = some m0 →
       CTC.empty d.address = true →
       CTC.pySplit (CTC.pyStrip m0) = sym :: addr :: rest →
       CTC.coinGet st (CTC.pyUpper sym) = some tc →
       CTC.coinPairGet st d.coin tc = some pair →
       CTC.validate_deposit st d =
         .ok (addr, pair,
              some (if rest ≠ [] then String.intercalate " " rest else ""))) ∧
    (∀ (st : CTC.Store) (d : CTC.Deposit) (da : String)
       (a_map : CTC.AddressAccountMap) (pair : CTC.CoinPair),
       CTC.conversionsFor st d.id = 0 →
       1 ≤ CTC.pairsFromCount st d.coin →
       d.address = some da → da ≠ "" →
       (CTC.addrMapCandidates st d.coin da (d.memo.map CTC.pyStrip)).head? =
         some a_map →
       CTC.coinPairGet st d.coin a_map.destination_coin = some pair →
       CTC.validate_deposit st d =
         .ok (a_map.destination_address, pair, a_map.destination_memo)) := by
  constructor
  · intro st d m0 sym addr rest tc pair hconv hpairs hmemo haddr hsplit hcoin hpair
    have hne : CTC.pyStrip m0 ≠ "" := by
      intro h0
      rw [h0, pySplit_empty] at hsplit
      exact List.noConfusion hsplit
    simp only [CTC.validate_deposit, hconv, hmemo, Option.map_some]
    rw [if_neg (by omega)]
    rw [if_neg (by omega)]
    simp [CTC.empty, haddr, hne, hsplit, hcoin, hpair]
    intro hcontra
    have h2 : CTC.empty d.address = false := hcontra
    rw [haddr] at h2
    exact Bool.noConfusion h2
  · intro st d da a_map pair hconv hpairs haddr hda hmap hpair
    simp only [CTC.validate_deposit, hconv, haddr]
    rw [if_neg (by omega)]
    rw [if_neg (by omega)]
    simp [CTC.empty, hda, hmap, hpair]

/-- Witness for C4: both routing rules evaluated on concrete stores —
memo `"LTC abc123 hello world"` resolves to address `abc123` with
destination memo `hello world`, and an address-mapped deposit resolves to
its AddressAccountMap row's destination triple. -/
theorem validate_deposit_routing_witness :
    CTC.pySplit (CTC.pyStrip "LTC abc123 hello world") =
      "LTC" :: "abc123" :: ["hello", "world"] ∧
    CTC.validate_deposit CTC.exStore CTC.exDepMemo =
      .ok ("abc123", CTC.exPairEngLtc,
           some (if (["hello", "world"] : List String) ≠ [] then
                   String.intercalate " " ["hello", "world"] else "")) ∧
    CTC.validate_deposit CTC.exStore CTC.exDepAddr =
      .ok (CTC.exAMap.destination_address, CTC.exPairEngLtc,
           CTC.exAMap.destination_memo) :=
  ⟨by decide,
   validate_deposit_routing.1 CTC.exStore CTC.exDepMemo
     "LTC abc123 hello world" "LTC" "abc123" ["hello", "world"]
     CTC.exLTC CTC.exPairEngLtc (by decide) (by decide) rfl rfl
     (by decide) (by decide) (by decide),
   validate_deposit_routing.2 CTC.exStore CTC.exDepAddr "engaddr1"
     CTC.exAMap CTC.exPairEngLtc (by decide) (by decide) rfl (by decide)
     (by decide) (by decide)⟩

/-- `validate_deposit` raises `ConvertError` only from its duplicate-
Conversion guard: with no existing Conversion the result is never
`ConvertError`. -/
theorem validate_deposit_no_error_of_no_conversion (st : CTC.Store)
    (d : CTC.Deposit) (h0 : CTC.conversionsFor st d.id = 0) :
    CTC.validate_deposit st d ≠ .error .convertError := by
  intro h
  simp only [CTC.validate_deposit, h0] at h
  rw [if_neg (by omega)] at h
  repeat' split at h
  all_goals simp_all

/-- Claim C5: `validate_deposit` raises the system-fault `ConvertError`
exactly when a Conversion row already exists for the deposit; with no
existing Conversion, each user/mapping fault — no outgoing CoinPair, a memo
splitting into fewer than two tokens (with empty address), a non-empty
address with no matching AddressAccountMap row, or neither memo nor
address — yields `ConvertInvalid`, never `ConvertError`; and in every error
case the store (hence the deposit row) is left unmodified by the validation
task. -/
theorem validate_deposit_error_classification :
    (∀ (st : CTC.Store) (d : CTC.Deposit),
       CTC.validate_deposit st d = .error .convertError ↔
         0 < CTC.conversionsFor st d.id) ∧
    (∀ (st : CTC.Store) (d : CTC.Deposit),
       CTC.conversionsFor st d.id = 0 →
       CTC.pairsFromCount st d.coin = 0 →
       CTC.validate_deposit st d = .error .convertInvalid) ∧
    (∀ (st : CTC.Store) (d : CTC.Deposit) (m0 : String),
       CTC.conversionsFor st d.id = 0 →
       1 ≤ CTC.pairsFromCount st d.coin →
       CTC.empty d.address = true →
       d.memo = some m0 → CTC.pyStrip m0 ≠ "" →
       (CTC.pySplit (CTC.pyStrip m0)).length < 2 →
       CTC.validate_deposit st d = .error .convertInvalid) ∧
    (∀ (st : CTC.Store) (d : CTC.Deposit) (da : String),
       CTC.conversionsFor st d.id = 0 →
       1 ≤ CTC.pairsFromCount st d.coin →
       d.address = some da → da ≠ "" →
       CTC.addrMapCandidates st d.coin da (d.memo.map CTC.pyStrip) = [] →
       CTC.validate_deposit st d = .error .convertInvalid) ∧
    (∀ (st : CTC.Store) (d : CTC.Deposit),
       CTC.conversionsFor st d.id = 0 →
       1 ≤ CTC.pairsFromCount st d.coin →
       CTC.empty d.address = true →
       CTC.empty (d.memo.map CTC.pyStrip) = true →
       CTC.validate_deposit st d = .error .convertInvalid) ∧
    (∀ (st : CTC.Store) (deposit_id : Nat) (d : CTC.Deposit) (e : CTC.VErr),
       CTC.depositGet st deposit_id = some d →
       d.status = "new" →
       CTC.validate_deposit st d = .error e →
       (CTC.check_deposit st deposit_id).1 = st) := by
  refine ⟨?_, ?_, ?_, ?_, ?_, ?_⟩
  · intro st d
    constructor
    · intro h
      by_contra hc
      exact validate_deposit_no_error_of_no_conversion st d (by omega) h
    · intro h
      simp only [CTC.validate_deposit, if_pos h]
  · intro st d h0 hp
    simp only [CTC.validate_deposit, h0, hp]
    rw [if_neg (by omega)]
    rw [if_pos (by omega)]
  · intro st d m0 h0 hp haddr hmemo hne hlen
    simp only [CTC.validate_deposit, h0, hmemo, Option.map_some]
    rw [if_neg (by omega)]
    rw [if_neg (by omega)]
    simp only [CTC.empty, haddr, hne]
    rcases hsp : CTC.pySplit (CTC.pyStrip m0) with _ | ⟨x, _ | ⟨y, r⟩⟩
    · simp [CTC.empty, haddr, hne, hsp]
      intro hcontra
      have h2 : CTC.empty d.address = false := hcontra
      rw [haddr] at h2
      exact Bool.noConfusion h2
    · simp [CTC.empty, haddr, hne, hsp]
      intro hcontra
      have h2 : CTC.empty d.address = false := hcontra
      rw [haddr] at h2
      exact Bool.noConfusion h2
    · rw [hsp] at hlen
      simp at hlen
      omega
  · intro st d da h0 hp haddr hda hmaps
    simp only [CTC.validate_deposit, h0, haddr]
    rw [if_neg (by omega)]
    rw [if_neg (by omega)]
    simp [CTC.empty, hda, hmaps]
  · intro st d h0 hp haddr hmemo
    simp only [CTC.validate_deposit, h0]
    rw [if_neg (by omega)]
    rw [if_neg (by omega)]
    simp [hmemo, haddr]
  · intro st deposit_id d e hget hstatus hval
    simp only [CTC.check_deposit, CTC.depositGet] at hget ⊢
    rw [hget]
    simp only [hstatus]
    cases e <;> simp [hval]

/-- Witness for C5: the duplicate-Conversion guard fires exactly on a store
holding a Conversion for the deposit; each user-fault shape (no pairs,
one-token memo, unmapped address, neither memo nor address) yields
`ConvertInvalid` on a concrete store; and the failing validation task
leaves the store untouched. -/
theorem validate_deposit_error_classification_witness :
    CTC.validate_deposit CTC.exStoreDup CTC.exDepMemo = .error .convertError ∧
    CTC.validate_deposit CTC.exStoreNoPairs CTC.exDepMemo = .error .convertInvalid ∧
    CTC.validate_deposit CTC.exStore CTC.exDepShort = .error .convertInvalid ∧
    CTC.validate_deposit CTC.exStore CTC.exDepUnmapped = .error .convertInvalid ∧
    CTC.validate_deposit CTC.exStore CTC.baseDeposit = .error .convertInvalid ∧
    (CTC.check_deposit CTC.exStore 3).1 = CTC.exStore :=
  ⟨(validate_deposit_error_classification.1 CTC.exStoreDup CTC.exDepMemo).mpr
     (by decide),
   validate_deposit_error_classification.2.1 CTC.exStoreNoPairs CTC.exDepMemo
     (by decide) (by decide),
   validate_deposit_error_classification.2.2.1 CTC.exStore CTC.exDepShort
     "onlyone" (by decide) (by decide) rfl rfl (by decide) (by decide),
   validate_deposit_error_classification.2.2.2.1 CTC.exStore CTC.exDepUnmapped
     "nomap" (by decide) (by decide) rfl (by decide) (by decide),
   validate_deposit_error_classification.2.2.2.2.1 CTC.exStore CTC.baseDeposit
     (by decide) (by decide) rfl rfl,
   validate_deposit_error_classification.2.2.2.2.2 CTC.exStore 3 CTC.exDepShort
     .convertInvalid (by decide) rfl
     (validate_deposit_error_classification.2.2.1 CTC.exStore CTC.exDepShort
        "onlyone" (by decide) (by decide) rfl rfl (by decide) (by decide))⟩

/-- Claim C2: for a deposit of amount 10 over a pair with exchange rate 1
and a 1% exchange fee, `convert` computes `send_amount = 9.9` and
`ex_fee = 0.1`; when the destination Mover is healthy and its send
succeeds with result `s`, `convert` returns success carrying the deposit
set to status `conv` with `processed_at` stamped, and exactly one
Conversion row with `ex_fee = 0.1` and `to_amount = s.amount` defaulting
to the deposit's own amount, which is `convert`'s return value. -/
theorem convert_example_end_to_end
    (env : CTC.Env) (deposit : CTC.Deposit) (pair : CTC.CoinPair)
    (address : String) (dest_memo : Option String) (s : CTC.MoverResult)
    (hamt : deposit.amount = 10) (hrate : pair.exchange_rate = 1)
    (hfee : env.EX_FEE = 1) (hhealthy : env.healthy = true)
    (hsend : CTC.moverSend env pair.to_coin = .ok s) :
    CTC.amount_converted deposit.amount pair.exchange_rate env.EX_FEE
      = (99/10, 1/10) ∧
    CTC.convert env deposit pair address dest_memo =
      CTC.CResult.success (99/10)
        { deposit with
          status := "conv"
          convert_to := some pair.to_coin
          processed_at := some env.now }
        { deposit_id := deposit.id
          from_coin := pair.from_coin
          to_coin := pair.to_coin
          from_address := s.from_
          to_address := address
          to_memo := some (CTC.final_dest_memo deposit
                             (CTC.pyUpper pair.from_coin.symbol) dest_memo)
          to_amount := s.amount.getD deposit.amount
          to_txid := s.txid
          tx_fee := s.fee.getD 0
          ex_fee := 1/10 } := by
  have hac : CTC.amount_converted deposit.amount pair.exchange_rate env.EX_FEE
      = (99/10, 1/10) := by
    rw [hamt, hrate, hfee]
    unfold CTC.amount_converted
    norm_num
  refine ⟨hac, ?_⟩
  simp only [CTC.convert, hhealthy, hsend, hac, Bool.not_true,
    CTC.depositConverted, CTC.conversionRow]
  rfl

/-- Witness for C2: the 10-coin deposit over the rate-1 pair with the 1%
fee environment, sent through a healthy Mover. -/
theorem convert_example_end_to_end_witness :
    CTC.baseDeposit.amount = 10 ∧ CTC.exPairEngLtc.exchange_rate = 1 ∧
    CTC.exEnv.EX_FEE = 1 ∧ CTC.exEnv.healthy = true ∧
    CTC.amount_converted CTC.baseDeposit.amount CTC.exPairEngLtc.exchange_rate
      CTC.exEnv.EX_FEE = (99/10, 1/10) :=
  ⟨rfl, rfl, rfl, rfl,
   (convert_example_end_to_end CTC.exEnv CTC.baseDeposit CTC.exPairEngLtc
      "abc123" none CTC.exMoverResult rfl rfl rfl rfl rfl).1⟩

/-- Claim C6: for a `mapped` deposit, a retryable condition — unhealthy
destination Mover, or `NotEnoughBalance` from its send/send_or_issue —
makes `convert` return `None` having changed no Deposit field except
`last_convert_attempt` (the returned record-update is the whole change, so
the status stays `mapped`), creating no Conversion row; and the outcome is
independent of whether the low-balance notification fails. -/
theorem convert_retryable_frame
    (env : CTC.Env) (deposit : CTC.Deposit) (pair : CTC.CoinPair)
    (address : String) (dest_memo : Option String)
    (hstatus : deposit.status = "mapped")
    (hretry : env.healthy = false ∨
              CTC.moverSend env pair.to_coin = .notEnoughBalance) :
    CTC.convert env deposit pair address dest_memo =
      CTC.CResult.retry { deposit with last_convert_attempt := some env.now } ∧
    ({ deposit with last_convert_attempt := some env.now } : CTC.Deposit).status
      = "mapped" ∧
    (∀ b : Bool,
       CTC.convert { env with notify_ok := b } deposit pair address dest_memo =
       CTC.convert env deposit pair address dest_memo) := by
  refine ⟨?_, hstatus, fun b => rfl⟩
  rcases hretry with h | h
  · simp [CTC.convert, h]
  · by_cases hh : env.healthy
    · simp [CTC.convert, h, hh]
    · simp [CTC.convert, eq_false_of_ne_true hh]

/-- Witness for C6: both retryable shapes on the concrete mapped deposit —
an unhealthy Mover environment and a `NotEnoughBalance` environment. -/
theorem convert_retryable_frame_witness :
    CTC.exDepMapped.status = "mapped" ∧ CTC.exEnvDown.healthy = false ∧
    CTC.convert CTC.exEnvBroke CTC.exDepMapped CTC.exPairEngLtc "abc123" none =
      CTC.CResult.retry
        { CTC.exDepMapped with last_convert_attempt := some CTC.exEnvBroke.now } :=
  ⟨rfl, rfl,
   (convert_retryable_frame CTC.exEnvBroke CTC.exDepMapped CTC.exPairEngLtc
      "abc123" none rfl (Or.inr rfl)).1⟩

/-- Inversion for `convert`: a success result means the Mover was healthy
and its send returned a result dict, and pins down the saved deposit and
the built Conversion row. -/
theorem convert_success_inversion (env : CTC.Env) (deposit : CTC.Deposit)
    (pair : CTC.CoinPair) (address : String) (dest_memo : Option String)
    (amt : ℚ) (d' : CTC.Deposit) (c : CTC.Conversion)
    (h : CTC.convert env deposit pair address dest_memo = .success amt d' c) :
    env.healthy = true ∧ ∃ s, CTC.moverSend env pair.to_coin = .ok s ∧
      d' = CTC.depositConverted deposit pair.to_coin env.now ∧
      c = CTC.conversionRow deposit pair address
            (CTC.final_dest_memo deposit (CTC.pyUpper pair.from_coin.symbol)
              dest_memo)
            (CTC.amount_converted deposit.amount pair.exchange_rate
              env.EX_FEE).2 s := by
  by_cases hh : env.healthy = true
  · refine ⟨hh, ?_⟩
    rcases hsend : CTC.moverSend env pair.to_coin with s | _ | _
    · refine ⟨s, rfl, ?_⟩
      simp only [CTC.convert, hh, hsend, Bool.not_true, Bool.false_eq_true,
        if_false, CTC.CResult.success.injEq] at h
      exact ⟨h.2.1.symm, h.2.2.symm⟩
    · exfalso
      simp [CTC.convert, hh, hsend] at h
    · exfalso
      simp [CTC.convert, hh, hsend] at h
  · exfalso
    simp [CTC.convert, eq_false_of_ne_true hh] at h

/-- Claim C7: `convert_deposit` moves a `mapped` deposit to `conv` only
together with a successful Mover send and a durably written Conversion row:
if the store after the task shows the deposit in status `conv`, then the
task's environment had a healthy Mover whose send returned ok, the task
returned that Conversion, and the Conversion row for this deposit is in the
resulting store. -/
theorem conv_status_only_after_send
    (env : CTC.Env) (locks : List String) (st : CTC.Store) (deposit_id : Nat)
    (d d' : CTC.Deposit)
    (hd : CTC.depositGet st deposit_id = some d)
    (hmapped : d.status = "mapped")
    (hd' : CTC.depositGet (CTC.convert_deposit env locks st deposit_id).1
             deposit_id = some d')
    (hconv : d'.status = "conv") :
    env.healthy = true ∧
    ∃ (tc : CTC.Coin) (pair : CTC.CoinPair) (s : CTC.MoverResult)
      (c : CTC.Conversion),
      d.convert_to = some tc ∧
      CTC.coinPairGet st d.coin tc = some pair ∧
      CTC.moverSend env pair.to_coin = .ok s ∧
      (CTC.convert_deposit env locks st deposit_id).2 = .ok c ∧
      c ∈ (CTC.convert_deposit env locks st deposit_id).1.conversions ∧
      c.deposit_id = deposit_id := by
  have hid : d.id = deposit_id := by
    have := List.find?_some hd
    exact of_decide_eq_true this
  have hcontradict : ∀ x : CTC.Deposit, CTC.depositGet st deposit_id = some x →
      x.status = "conv" → False := by
    intro x hx hxs
    rw [hd] at hx
    injection hx with hx
    rw [← hx, hmapped] at hxs
    exact absurd hxs (by decide)
  simp only [CTC.convert_deposit, hd] at hd' ⊢
  by_cases hl : CTC.convertLockName deposit_id ∈ locks
  · rw [if_pos hl] at hd'
    exact absurd hconv (fun hc => hcontradict d' hd' hc)
  · rw [if_neg hl] at hd' ⊢
    rw [if_neg (by simp [hmapped])] at hd' ⊢
    by_cases hct : d.convert_to.isNone || CTC.empty d.convert_dest_address
    · rw [if_pos hct] at hd'
      exact absurd hconv (fun hc => hcontradict d' hd' hc)
    · rw [if_neg hct] at hd' ⊢
      rcases hcto : d.convert_to with _ | tc
      · simp only [hcto] at hd'
        exact absurd hconv (fun hc => hcontradict d' hd' hc)
      · simp only [hcto] at hd' ⊢
        rcases hpg : CTC.coinPairGet st d.coin tc with _ | pair
        · simp only [hpg] at hd'
          exact absurd hconv (fun hc => hcontradict d' hd' hc)
        · simp only [hpg] at hd' ⊢
          rcases hcv : CTC.convert env d pair (d.convert_dest_address.getD "")
              d.convert_dest_memo with ⟨amt, dd, c⟩ | dd | _
          · simp only [hcv] at hd' ⊢
            by_cases hc0 : 0 < CTC.conversionsFor st deposit_id
            · rw [if_pos hc0] at hd'
              exact absurd hconv (fun hcx => hcontradict d' hd' hcx)
            · rw [if_neg hc0] at hd' ⊢
              obtain ⟨hh, s, hsend, hdd, hc⟩ :=
                convert_success_inversion env d pair
                  (d.convert_dest_address.getD "") d.convert_dest_memo amt dd c
                  hcv
              refine ⟨hh, tc, pair, s, c, rfl, hpg, hsend, rfl, ?_, ?_⟩
              · simp [CTC.commitConvert]
              · rw [hc]
                simpa [CTC.conversionRow] using hid
          · simp only [hcv] at hd'
            exact absurd hconv (fun hc => hcontradict d' hd' hc)
          · simp only [hcv] at hd'
            exact absurd hconv (fun hc => hcontradict d' hd' hc)

/-- Witness for C7: a full concrete `convert_deposit` run on the mapped
deposit 5 leaves it stored as converted, and the theorem applied to that
run yields the healthy-Mover fact. -/
theorem conv_status_only_after_send_witness :
    CTC.depositGet ((CTC.convert_deposit CTC.exEnv [] CTC.exStore 5).1) 5 =
      some (CTC.depositConverted CTC.exDepMapped CTC.exLTC 42) ∧
    (CTC.depositConverted CTC.exDepMapped CTC.exLTC 42).status = "conv" ∧
    CTC.exEnv.healthy = true :=
  ⟨by decide, rfl,
   (conv_status_only_after_send CTC.exEnv [] CTC.exStore 5 CTC.exDepMapped
      (CTC.depositConverted CTC.exDepMapped CTC.exLTC 42) (by decide) rfl
      (by decide) rfl).1⟩

/-- Claim C8: a deposit in terminal state `conv` or `refund` makes every
later attempt fail fast without mutation or sending: `convert_deposit`
raises `ConvertError` with the store unchanged (its status guard runs
before any write), and `refund_sender` raises `NotRefunding` having made
zero Mover send calls. -/
theorem terminal_states_fail_fast :
    (∀ (env : CTC.Env) (locks : List String) (st : CTC.Store)
       (deposit_id : Nat) (d : CTC.Deposit),
       CTC.depositGet st deposit_id = some d →
       CTC.convertLockName deposit_id ∉ locks →
       (d.status = "conv" ∨ d.status = "refund") →
       CTC.convert_deposit env locks st deposit_id = (st, .convertError)) ∧
    (∀ (now : Nat) (txAmount : ℚ) (txTxid : String) (d : CTC.Deposit)
       (reason return_to : Option String),
       (d.status = "conv" ∨ d.status = "refund") →
       CTC.refund_sender now txAmount txTxid d reason return_to =
         (.notRefunding, 0)) := by
  constructor
  · intro env locks st deposit_id d hd hl hs
    simp only [CTC.convert_deposit, hd]
    rw [if_neg hl]
    rcases hs with h | h <;> rw [if_pos (by rw [h]; decide)]
  · intro now txAmount txTxid d reason return_to hs
    rcases hs with h | h <;> simp [CTC.refund_sender, h]

/-- Witness for C8: the terminal deposits 6 (`conv`) and 7 (`refund`) in a
concrete store: `convert_deposit` errors leaving the store intact, and
`refund_sender` refuses with zero sends. -/
theorem terminal_states_fail_fast_witness :
    CTC.convert_deposit CTC.exEnv [] CTC.exStoreTerm 6 =
      (CTC.exStoreTerm, .convertError) ∧
    CTC.refund_sender 42 10 "rtx" CTC.exDepRefund none none =
      (.notRefunding, 0) :=
  ⟨terminal_states_fail_fast.1 CTC.exEnv [] CTC.exStoreTerm 6 CTC.exDepConv
     (by decide) (by decide) (Or.inl rfl),
   terminal_states_fail_fast.2 42 10 "rtx" CTC.exDepRefund none none
     (Or.inr rfl)⟩

namespace CTC

/-- `importTx` never touches the Coin table. -/
theorem importTx_coins (st : Store) (tx : Tx) : (importTx st tx).coins = st.coins := by
  unfold importTx
  split
  · rfl
  · split <;> rfl

/-- `importTx` only appends deposits, it never removes one. -/
theorem importTx_deposits_mono (st : Store) (tx : Tx) (dep : Deposit)
    (h : dep ∈ st.deposits) : dep ∈ (importTx st tx).deposits := by
  unfold importTx
  split
  · exact h
  · split
    · exact h
    · simp only [List.mem_append]
      exact Or.inl h

/-- A seen transaction is a no-op for `importTx`. -/
theorem importTx_of_seen (st : Store) (tx : Tx) (h : seenTx st tx) :
    importTx st tx = st := by
  unfold importTx
  rcases h with ⟨dep, hmem, htx⟩ | hcoin
  · have hfil : dep ∈ st.deposits.filter (fun dep => dep.txid = tx.txid) :=
      List.mem_filter.mpr ⟨hmem, by simp [htx]⟩
    have hpos : 0 < (st.deposits.filter (fun dep => dep.txid = tx.txid)).length :=
      List.length_pos.mpr (List.ne_nil_of_mem hfil)
    rw [if_pos hpos]
  · split
    · rfl
    · simp only [hcoin]

/-- After `importTx`, the transaction is seen. -/
theorem importTx_seen_self (st : Store) (tx : Tx) : seenTx (importTx st tx) tx := by
  unfold importTx
  split
  · rename_i hdup
    left
    have hne : st.deposits.filter (fun dep => dep.txid = tx.txid) ≠ [] := by
      intro hnil
      rw [hnil] at hdup
      simp at hdup
    rcases List.exists_mem_of_ne_nil _ hne with ⟨dep, hdep⟩
    have h2 := List.mem_filter.mp hdep
    exact ⟨dep, h2.1, by simpa using h2.2⟩
  · rcases hcg : coinGet st tx.coin with _ | c
    · simp only [hcg]
      exact Or.inr hcg
    · simp only [hcg]
      left
      exact ⟨mkDeposit (nextDepositId st) c tx, by simp, rfl⟩

/-- Seen-ness is stable under further imports. -/
theorem seenTx_mono_importTx (st : Store) (tx tx' : Tx) (h : seenTx st tx) :
    seenTx (importTx st tx') tx := by
  rcases h with ⟨dep, hmem, htx⟩ | hcoin
  · exact Or.inl ⟨dep, importTx_deposits_mono st tx' dep hmem, htx⟩
  · right
    show (importTx st tx').coins.find? _ = none
    rw [importTx_coins]
    exact hcoin

/-- Seen-ness is stable under a whole import loop. -/
theorem seenTx_mono_importLoop (batch : Nat) :
    ∀ (txs : List Tx) (st : Store) (i : Nat) (tx : Tx), seenTx st tx →
      seenTx (importLoop st txs batch i).1 tx := by
  intro txs
  induction txs with
  | nil => intro st i tx h; exact h
  | cons t rest ih =>
    intro st i tx h
    simp only [importLoop]
    split
    · exact seenTx_mono_importTx st tx t h
    · exact ih (importTx st t) (i + 1) tx (seenTx_mono_importTx st tx t h)

/-- The txid-only duplicate check of `importTx` preserves txid uniqueness of
the Deposit table. -/
theorem importTx_txidUnique (st : Store) (tx : Tx) (h : txidUnique st.deposits) :
    txidUnique (importTx st tx).deposits := by
  unfold importTx
  split
  · exact h
  · rename_i hdup
    split
    · exact h
    · have hnone : ∀ dep ∈ st.deposits, ¬(dep.txid = tx.txid) := by
        intro dep hmem heq
        exact hdup (List.length_pos.mpr (List.ne_nil_of_mem
          (List.mem_filter.mpr ⟨hmem, by simp [heq]⟩)))
      unfold txidUnique at h ⊢
      rw [List.pairwise_append]
      refine ⟨h, List.pairwise_singleton _ _, ?_⟩
      intro a ha b hb
      simp only [List.mem_singleton] at hb
      rw [hb]
      exact hnone a ha

/-- txid uniqueness is preserved by the whole import loop. -/
theorem importLoop_txidUnique (batch : Nat) :
    ∀ (txs : List Tx) (st : Store) (i : Nat), txidUnique st.deposits →
      txidUnique (importLoop st txs batch i).1.deposits := by
  intro txs
  induction txs with
  | nil => intro st i h; exact h
  | cons t rest ih =>
    intro st i h
    simp only [importLoop]
    split
    · exact importTx_txidUnique st t h
    · exact ih (importTx st t) (i + 1) (importTx_txidUnique st t h)

/-- Re-running the import loop over the same transaction stream changes
nothing: every transaction it consumes the second time is already seen. -/
theorem importLoop_twice (batch : Nat) :
    ∀ (txs : List Tx) (st : Store) (i : Nat),
      (importLoop (importLoop st txs batch i).1 txs batch i).1 =
        (importLoop st txs batch i).1 := by
  intro txs
  induction txs with
  | nil =>
    intro st i
    simp [importLoop]
  | cons t rest ih =>
    intro st i
    by_cases hb : batch ≤ i + 1
    · simp only [importLoop, if_pos hb]
      exact importTx_of_seen _ t (importTx_seen_self st t)
    · simp only [importLoop, if_neg hb]
      rw [importTx_of_seen _ t
        (seenTx_mono_importLoop batch rest (importTx st t) (i + 1) t
          (importTx_seen_self st t))]
      exact ih (importTx st t) (i + 1)

end CTC

/-- Claim C9: `import_batch` never duplicates a deposit: it preserves txid
uniqueness of the Deposit table (hence no two rows ever share
`(txid, coin, vout)`), and feeding the same transaction stream to it a
second time leaves the store exactly as it was — each transaction is
skipped on the duplicate check (or, for an unknown coin, its insert fails
and the exception is swallowed), leaving the one existing row. -/
theorem import_batch_never_duplicates :
    (∀ (st : CTC.Store) (txs : List CTC.Tx) (batch : Nat),
       CTC.txidUnique st.deposits →
       CTC.txidUnique (CTC.import_batch st txs batch).1.deposits) ∧
    (∀ (st : CTC.Store) (txs : List CTC.Tx) (batch : Nat),
       CTC.txidUnique st.deposits →
       (CTC.import_batch st txs batch).1.deposits.Pairwise
         (fun a b => ¬(a.txid = b.txid ∧ a.coin = b.coin ∧ a.vout = b.vout))) ∧
    (∀ (st : CTC.Store) (txs : List CTC.Tx) (batch : Nat),
       (CTC.import_batch (CTC.import_batch st txs batch).1 txs batch).1 =
         (CTC.import_batch st txs batch).1) := by
  refine ⟨?_, ?_, ?_⟩
  · intro st txs batch h
    exact CTC.importLoop_txidUnique batch txs st 0 h
  · intro st txs batch h
    exact (CTC.importLoop_txidUnique batch txs st 0 h).imp
      (fun hab hand => hab hand.1)
  · intro st txs batch
    exact CTC.importLoop_twice batch txs st 0

/-- Witness for C9: a concrete one-deposit store fed a fresh transaction
plus a duplicate of the existing txid, twice. -/
theorem import_batch_never_duplicates_witness :
    CTC.txidUnique CTC.exScanStore.deposits ∧
    (CTC.import_batch CTC.exScanStore [CTC.exTxNew, CTC.exTxDup]
        100).1.deposits.Pairwise
      (fun a b => ¬(a.txid = b.txid ∧ a.coin = b.coin ∧ a.vout = b.vout)) ∧
    (CTC.import_batch
        (CTC.import_batch CTC.exScanStore [CTC.exTxNew, CTC.exTxDup] 100).1
        [CTC.exTxNew, CTC.exTxDup] 100).1 =
      (CTC.import_batch CTC.exScanStore [CTC.exTxNew, CTC.exTxDup] 100).1 :=
  ⟨by simp [CTC.txidUnique, CTC.exScanStore],
   import_batch_never_duplicates.2.1 CTC.exScanStore [CTC.exTxNew, CTC.exTxDup]
     100 (by simp [CTC.txidUnique, CTC.exScanStore]),
   import_batch_never_duplicates.2.2 CTC.exScanStore [CTC.exTxNew, CTC.exTxDup]
     100⟩

/-- Claim C10: `import_batch` deduplicates on the txid alone: an incoming
transaction whose txid matches any existing Deposit row is skipped — no new
row is created even when its coin or output index differ from the existing
row's — so the table keeps at most one Deposit per txid, strictly stronger
than the `(txid, coin, vout)` uniqueness rule requires. -/
theorem import_batch_dedup_txid_only :
    (∀ (st : CTC.Store) (tx : CTC.Tx) (dep : CTC.Deposit),
       dep ∈ st.deposits → dep.txid = tx.txid →
       CTC.importTx st tx = st) ∧
    (∀ (st : CTC.Store) (tx : CTC.Tx) (batch : Nat) (dep : CTC.Deposit),
       dep ∈ st.deposits → dep.txid = tx.txid →
       (CTC.import_batch st [tx] batch).1 = st) ∧
    (∀ (st : CTC.Store) (txs : List CTC.Tx) (batch : Nat),
       CTC.txidUnique st.deposits →
       CTC.txidUnique (CTC.import_batch st txs batch).1.deposits) := by
  refine ⟨?_, ?_, ?_⟩
  · intro st tx dep hmem htx
    exact CTC.importTx_of_seen st tx (Or.inl ⟨dep, hmem, htx⟩)
  · intro st tx batch dep hmem htx
    simp only [CTC.import_batch, CTC.importLoop]
    rw [CTC.importTx_of_seen st tx (Or.inl ⟨dep, hmem, htx⟩)]
    split <;> simp [CTC.importLoop]
  · intro st txs batch h
    exact CTC.importLoop_txidUnique batch txs st 0 h

/-- Witness for C10: the duplicate transaction carries a different coin
(`LTC` vs `ENG`) and a different vout (7 vs 0) from the stored row with its
txid, and is still skipped. -/
theorem import_batch_dedup_txid_only_witness :
    CTC.exDepScan ∈ CTC.exScanStore.deposits ∧
    CTC.exDepScan.txid = CTC.exTxDup.txid ∧
    CTC.exDepScan.coin.symbol ≠ CTC.exTxDup.coin ∧
    CTC.exDepScan.vout ≠ CTC.exTxDup.vout ∧
    (CTC.import_batch CTC.exScanStore [CTC.exTxDup] 100).1 = CTC.exScanStore :=
  ⟨by simp [CTC.exScanStore], rfl, by decide, by decide,
   import_batch_dedup_txid_only.2.1 CTC.exScanStore CTC.exTxDup 100
     CTC.exDepScan (by simp [CTC.exScanStore]) rfl⟩

/-- Claim C1 (code bug): `tasks.convert_deposit` fetches the Deposit BEFORE
acquiring the per-deposit lock, so the status check inside the lock runs on
a stale instance.  Concretely: worker 2 fetches the mapped deposit, worker
1 then runs its whole locked critical section (send + commit) and releases;
worker 2 now acquires the free lock, its stale status check still reads
`mapped`, and it sends a second time — two successful Mover sends for one
deposit.  Only the Deposit↔Conversion one-to-one constraint stops the
second Conversion row (`IntegrityError`, rolled back after the funds left).
This run starts from a store satisfying the claim's premise: deposit 5 is
`mapped` and has no Conversion row. -/
theorem convert_deposit_double_send :
    CTC.conversionsFor CTC.exStore 5 = 0 ∧
    CTC.exDepMapped.status = "mapped" ∧
    CTC.depositGet CTC.exStore 5 = some CTC.exDepMapped ∧
    (let final := CTC.sysRun CTC.exEnv 5 (CTC.initSys CTC.exStore)
        [false, true, true, true, true, true, false, false, false, false]
     final.sends = 2 ∧
     CTC.conversionsFor final.store 5 = 1 ∧
     final.w1 = .doneOk ∧
     final.w2 = .doneFail ∧
     (CTC.depositGet final.store 5).map CTC.Deposit.status = some "conv") := by
  refine ⟨rfl, rfl, by decide, ?_⟩
  refine ⟨by decide, by decide, by decide, by decide, by decide⟩
